import Mathlib

/-!
Shallow embedding of the VisionID face-detection app
(`face-detection-app/backend/server.js`, the plain React `App` and the
MUI `App` variant bundled next to it), together with theorems checking
the natural-language specification against the code.

Machine strings are `String` (logically a list of characters), byte
buffers are `List Nat`, and the JavaScript truthiness conventions used
by the code are modelled explicitly.
-/

namespace VisionID

/-! ### JavaScript string primitives used by the code -/

/-- Truthiness of an optional JS string: `undefined` and the empty
string are falsy, every other string is truthy. -/
def jsTruthy : Option String → Bool
  | none => false
  | some s => s ≠ ""

/-- Truthiness resolution `a || b` for an optional string `a` with
fallback `b` (JS `a?.x || b` chains). -/
def jsOrStr (a : Option String) (b : String) : String :=
  match a with
  | some s => if s = "" then b else s
  | none => b

/-- Whitespace recognised by `String.prototype.trim` (the subset that
can occur in this app's inputs). -/
def isJsWhitespace (c : Char) : Bool :=
  c = ' ' || c = '\t' || c = '\n' || c = '\r'

/-- Character-list version of `trim`. -/
def trimChars (l : List Char) : List Char :=
  ((l.dropWhile isJsWhitespace).reverse.dropWhile isJsWhitespace).reverse

/-- JS `s.trim()`. -/
def jsTrim (s : String) : String := ⟨trimChars s.data⟩

/-- First occurrence of `sep` inside `s`: returns the characters before
the first occurrence and the characters after it. -/
def findSubstr (sep : List Char) : List Char → Option (List Char × List Char)
  | [] => if sep = [] then some ([], []) else none
  | c :: rest =>
    if sep.isPrefixOf (c :: rest) then some ([], (c :: rest).drop sep.length)
    else
      match findSubstr sep rest with
      | some (pre, post) => some (c :: pre, post)
      | none => none

/-- JS `s.includes(sep)`. -/
def jsIncludes (s sep : String) : Bool := (findSubstr sep.data s.data).isSome

/-- Fuelled splitting of a character list at every occurrence of `sep`
(the fuel only bounds the recursion; `length + 1` fuel is always
enough because each occurrence consumes at least one character). -/
def splitFuel (sep : List Char) : Nat → List Char → List (List Char)
  | 0, s => [s]
  | fuel + 1, s =>
    match findSubstr sep s with
    | none => [s]
    | some (pre, post) => pre :: splitFuel sep fuel post

/-- JS `s.split(sep)` for a non-empty separator. -/
def jsSplit (s sep : String) : List String :=
  (splitFuel sep.data (s.data.length + 1) s.data).map (fun l => ⟨l⟩)

/-- JS `s.replace(/\/$/, '')`: drop a single trailing slash. -/
def stripTrailingSlash (s : String) : String :=
  match s.data.reverse with
  | [] => s
  | c :: _ => if c = '/' then ⟨s.data.dropLast⟩ else s

/-! ### Base64 decoding (`Buffer.from(base64Data, 'base64')`)

Node's base64 decoder is forgiving: characters outside the base64
alphabet (including padding and whitespace) are skipped, and the
remaining sextets are packed into bytes, dropping a trailing
incomplete byte. -/

/-- Value of a base64 alphabet character, `none` for everything else. -/
def base64Val (c : Char) : Option Nat :=
  if 'A' ≤ c ∧ c ≤ 'Z' then some (c.toNat - 65)
  else if 'a' ≤ c ∧ c ≤ 'z' then some (c.toNat - 71)
  else if '0' ≤ c ∧ c ≤ '9' then some (c.toNat + 4)
  else if c = '+' then some 62
  else if c = '/' then some 63
  else none

/-- Pack a list of 6-bit values into 8-bit bytes (4 sextets give
3 bytes; a dangling 2 or 3 sextets give 1 or 2 bytes; a lone
sextet gives nothing). -/
def sextetsToBytes : List Nat → List Nat
  | a :: b :: c :: d :: rest =>
    (a * 4 + b / 16) :: ((b % 16) * 16 + c / 4) :: ((c % 4) * 64 + d) :: sextetsToBytes rest
  | [a, b] => [a * 4 + b / 16]
  | [a, b, c] => [a * 4 + b / 16, (b % 16) * 16 + c / 4]
  | _ => []

/-- Decoded byte buffer of a base64 text. -/
def base64DecodeBytes (s : String) : List Nat :=
  sextetsToBytes (s.data.filterMap base64Val)

/-! ### Detection proxy data model (`backend/server.js`) -/

/-- Body of `POST /api/detect-faces`:
`{ imageUrl?: string, imageData?: string }`. -/
structure DetectRequest where
  imageUrl : Option String
  imageData : Option String
deriving DecidableEq

/-- Process configuration read once at startup
(`AZURE_FACE_ENDPOINT` / `AZURE_FACE_KEY`). -/
structure Config where
  endpoint : String
  key : String
deriving DecidableEq

/-- Body of the outbound request to the external service: a JSON
`{ url }` reference for the URL path, or the raw decoded bytes with a
binary content type for the inline path. -/
inductive OutboundBody where
  | jsonUrl (url : String)
  | octets (buf : List Nat)
deriving DecidableEq

/-- The axios request configuration the handler builds before calling
the external service. -/
structure RequestConfig where
  url : String
  contentType : String
  subscriptionKey : String
  returnFaceId : String
  returnFaceLandmarks : String
  returnRecognitionModel : String
  body : OutboundBody
deriving DecidableEq

/-- Rectangle of a detected face, in source-image pixel units. -/
structure FaceRectangle where
  left : Int
  top : Int
  width : Int
  height : Int
deriving DecidableEq

/-- A single named landmark point. -/
structure LandmarkPoint where
  x : Int
  y : Int
deriving DecidableEq

/-- The landmark points the client draws. -/
structure Landmarks where
  pupilLeft : Option LandmarkPoint
  pupilRight : Option LandmarkPoint
  noseTip : Option LandmarkPoint
  mouthLeft : Option LandmarkPoint
  mouthRight : Option LandmarkPoint
deriving DecidableEq

/-- One face record of the external detection array. -/
structure Face where
  faceRectangle : FaceRectangle
  faceLandmarks : Option Landmarks
deriving DecidableEq

/-- Error payload `data.error` of a failed external call. -/
structure ErrorInfo where
  code : Option String
  message : Option String
deriving DecidableEq

/-- Response body `error.response.data` of a failed external call. -/
structure ErrorData where
  error : Option ErrorInfo
  message : Option String
deriving DecidableEq

/-- The HTTP response attached to a failed axios call, when the
external service answered at all. -/
structure ErrorResponse where
  status : Nat
  data : Option ErrorData
deriving DecidableEq

/-- An axios error: optional HTTP response plus the JS `Error` message
(network failures have no `response`). -/
structure AxiosError where
  response : Option ErrorResponse
  message : String
deriving DecidableEq

/-- Outcome of the external face-detection call. -/
inductive AzureOutcome where
  | success (faces : List Face)
  | failure (e : AxiosError)
deriving DecidableEq

/-- Error body `{ error, code, suggestion, details }` the proxy returns
on a failed external call. -/
structure ErrorBody where
  error : String
  code : String
  suggestion : String
  details : Option ErrorData
deriving DecidableEq

/-- Response of the `/api/detect-faces` route. -/
inductive RouteResponse where
  | validationError (status : Nat) (error : String)
  | success (status : Nat) (faces : List Face)
  | serviceError (status : Nat) (body : ErrorBody)
deriving DecidableEq

/-- A 400 response carrying a non-empty descriptive message. -/
def RouteResponse.isClientErrorWithMessage : RouteResponse → Bool
  | .validationError s m => s == 400 && !(m == "")
  | _ => false

/-- Result of the validation / request-building phase of the handler,
before the external call. -/
inductive HandlerResult where
  | reject (status : Nat) (error : String)
  | forward (rc : RequestConfig)
deriving DecidableEq

/-- The validation phase reached the forwarding step. -/
def HandlerResult.isForward : HandlerResult → Bool
  | .forward _ => true
  | .reject _ _ => false

/-- The external detect URL: endpoint with a trailing slash stripped,
plus `/face/v1.0/detect`. -/
def azureUrlOf (cfg : Config) : String :=
  stripTrailingSlash cfg.endpoint ++ "/face/v1.0/detect"

/-- JS `imageData.includes('base64,') ? imageData.split('base64,')[1] : imageData`:
strip a data-URL encoding marker before decoding. -/
def stripBase64Marker (imageData : String) : String :=
  if jsIncludes imageData ("base64,") then (jsSplit imageData ("base64,")).getD 1 ""
  else imageData

/-- The request configuration built on the URL branch of the handler. -/
def urlRequestConfig (cfg : Config) (u : String) : RequestConfig :=
  { url := azureUrlOf cfg
    contentType := "application/json"
    subscriptionKey := cfg.key
    returnFaceId := "false"
    returnFaceLandmarks := "true"
    returnRecognitionModel := "false"
    body := .jsonUrl u }

/-- The request configuration built on the inline-data branch. -/
def dataRequestConfig (cfg : Config) (buf : List Nat) : RequestConfig :=
  { url := azureUrlOf cfg
    contentType := "application/octet-stream"
    subscriptionKey := cfg.key
    returnFaceId := "false"
    returnFaceLandmarks := "true"
    returnRecognitionModel := "false"
    body := .octets buf }

/-- Validation and request building of `POST /api/detect-faces`
(`server.js` lines 27-104): reject when neither field is truthy, take
the URL branch when `imageUrl` is truthy, otherwise strip the data-URL
marker, decode, and enforce the 6 MB maximum and 1 KB minimum. -/
def detectFacesValidate (cfg : Config) (req : DetectRequest) : HandlerResult :=
  if !jsTruthy req.imageUrl && !jsTruthy req.imageData then
    .reject 400 ("Either imageUrl or imageData is required")
  else if jsTruthy req.imageUrl then
    .forward (urlRequestConfig cfg (req.imageUrl.getD ""))
  else
    let imageBuffer := base64DecodeBytes (stripBase64Marker (req.imageData.getD ""))
    if imageBuffer.length > 6 * 1024 * 1024 then
      .reject 400 ("Image too large. Maximum size is 6MB.")
    else if imageBuffer.length < 1024 then
      .reject 400 ("Image too small or corrupted.")
    else
      .forward (dataRequestConfig cfg imageBuffer)

/-- Resolution of the caller-facing error message on a failed external
call: `error.response?.data?.error?.message || error.response?.data?.message
|| error.message || 'Face detection failed'`. -/
def azureErrorMessage (e : AxiosError) : String :=
  jsOrStr (((e.response.bind (·.data)).bind (·.error)).bind (·.message))
    (jsOrStr ((e.response.bind (·.data)).bind (·.message))
      (jsOrStr (some e.message) ("Face detection failed")))

/-- Machine code of a failed external call:
`error.response?.data?.error?.code || 'Unknown'`. -/
def azureErrorCode (e : AxiosError) : String :=
  jsOrStr (((e.response.bind (·.data)).bind (·.error)).bind (·.code)) ("Unknown")

/-- The fixed suggestion table keyed by external error code; empty for
unrecognised codes. -/
def suggestionFor (code : String) : String :=
  if code = "InvalidImageUrl" then
    "The image URL is invalid or inaccessible. Please check the URL."
  else if code = "InvalidImageFormat" then
    "The image format is not supported. Use JPG, PNG, GIF, or BMP."
  else if code = "InvalidImageSize" then
    "The image size is invalid. Image must be between 1KB and 6MB."
  else if code = "InvalidRequest" then
    "The request format is invalid. This might be an API version issue."
  else if code = "Unauthorized" then
    "Invalid API key. Please check your Azure subscription key."
  else ""

/-- Status of the proxy response on a failed external call:
`error.response?.status || 500`. -/
def azureStatusOf (e : AxiosError) : Nat :=
  match e.response with
  | some r => if r.status = 0 then 500 else r.status
  | none => 500

/-- Error body `{ error, code, suggestion, details }` built by the
catch block of the route. -/
def azureErrorBody (e : AxiosError) : ErrorBody :=
  { error := azureErrorMessage e
    code := azureErrorCode e
    suggestion := suggestionFor (azureErrorCode e)
    details := e.response.bind (·.data) }

/-- The whole `POST /api/detect-faces` route, parameterised by the
external service `svc`. The second component records the outbound
calls actually made, so that rejection before any external call is
observable. -/
def detectFacesRoute (cfg : Config) (svc : RequestConfig → AzureOutcome)
    (req : DetectRequest) : RouteResponse × List RequestConfig :=
  match detectFacesValidate cfg req with
  | .reject s m => (.validationError s m, [])
  | .forward rc =>
    match svc rc with
    | .success faces => (.success 200 faces, [rc])
    | .failure e => (.serviceError (azureStatusOf e) (azureErrorBody e), [rc])

/-! ### Startup configuration check (`server.js` lines 14-22) -/

/-- Process environment visible to the proxy. -/
structure Env where
  azureFaceEndpoint : Option String
  azureFaceKey : Option String
deriving DecidableEq

/-- Startup outcome: exit before listening, or listen with the
configuration read once from the environment. -/
inductive Startup where
  | exit (code : Nat)
  | listen (cfg : Config)
deriving DecidableEq

/-- Module-level startup sequence: read both values once, and
`process.exit(1)` before `app.listen` when either is falsy. -/
def startup (env : Env) : Startup :=
  if !jsTruthy env.azureFaceEndpoint || !jsTruthy env.azureFaceKey then
    .exit 1
  else
    .listen { endpoint := env.azureFaceEndpoint.getD "", key := env.azureFaceKey.getD "" }

/-! ### Client rendering model (`drawFaceBoxes` in the plain `App`,
and the canvas `render` closure in the MUI `App` variant)

Canvas work is modelled as the list of drawing commands issued, in
order. -/

/-- The loaded preview image element (only its pixel dimensions
matter to the renderers). -/
structure ImgEl where
  width : Int
  height : Int
deriving DecidableEq

/-- One canvas drawing command. -/
inductive DrawCmd where
  | clearRect
  | image (w h : Int)
  | strokeRect (left top width height : Int)
  | fillText (text : String) (x y : Int)
  | point (x y : Int)
deriving DecidableEq

/-- The `drawPoint` helper: a filled dot when the landmark is
present, nothing otherwise. -/
def drawLandmarkPoint : Option LandmarkPoint → List DrawCmd
  | some p => [.point p.x p.y]
  | none => []

/-- Landmark dots drawn for one face (pupils, nose tip, mouth
corners), when the record carries landmarks. -/
def landmarkCmds (lm? : Option Landmarks) : List DrawCmd :=
  match lm? with
  | some lm =>
    drawLandmarkPoint lm.pupilLeft ++ drawLandmarkPoint lm.pupilRight ++
      drawLandmarkPoint lm.noseTip ++ drawLandmarkPoint lm.mouthLeft ++
      drawLandmarkPoint lm.mouthRight
  | none => []

/-- Per-face drawing of `drawFaceBoxes`: bounding box, numbered label
at `(left, top - 10)`, landmark dots. -/
def drawFaceCmds (index : Nat) (face : Face) : List DrawCmd :=
  [DrawCmd.strokeRect face.faceRectangle.left face.faceRectangle.top
      face.faceRectangle.width face.faceRectangle.height,
   DrawCmd.fillText ("Face " ++ toString (index + 1)) face.faceRectangle.left
      (face.faceRectangle.top - 10)]
    ++ landmarkCmds face.faceLandmarks

/-- The `faces.forEach((face, index) => ...)` loop of `drawFaceBoxes`. -/
def drawFacesFrom (index : Nat) : List Face → List DrawCmd
  | [] => []
  | f :: rest => drawFaceCmds index f ++ drawFacesFrom (index + 1) rest

/-- `drawFaceBoxes` of the plain `App`: returns early (drawing
nothing, not even the image) when the image or canvas ref is missing
or when the face list is empty; otherwise draws the image and then
every face. -/
def drawFaceBoxes (img : Option ImgEl) (canvas : Option Unit)
    (faces : List Face) : List DrawCmd :=
  match img, canvas with
  | some im, some _ =>
    if faces.length = 0 then []
    else DrawCmd.image im.width im.height :: drawFacesFrom 0 faces
  | _, _ => []

/-- Per-face drawing of the MUI `render` closure: bounding box,
numbered label at `(left + 6, max 20 (top - 8))`, landmark dots
(`face.faceLandmarks || {}`). -/
def muiDrawFaceCmds (index : Nat) (face : Face) : List DrawCmd :=
  [DrawCmd.strokeRect face.faceRectangle.left face.faceRectangle.top
      face.faceRectangle.width face.faceRectangle.height,
   DrawCmd.fillText ("Face " ++ toString (index + 1)) (face.faceRectangle.left + 6)
      (max 20 (face.faceRectangle.top - 8))]
    ++ landmarkCmds face.faceLandmarks

/-- The `faces.forEach((face, idx) => ...)` loop of the MUI render. -/
def muiDrawFacesFrom (index : Nat) : List Face → List DrawCmd
  | [] => []
  | f :: rest => muiDrawFaceCmds index f ++ muiDrawFacesFrom (index + 1) rest

/-- The MUI `render` closure (user-space geometry; the
device-pixel-ratio transform rescales the backing store but not the
drawn coordinates): clear, draw the image, then draw every face. -/
def muiRenderCmds (im : ImgEl) (faces : List Face) : List DrawCmd :=
  DrawCmd.clearRect :: DrawCmd.image im.width im.height :: muiDrawFacesFrom 0 faces

/-! ### Client session state machine (plain `App`)

Media tracks are identified by allocation order; `liveTracks` holds
the identifiers of every acquired track that has not reached the
stopped state. -/

/-- Transient client state: preview, results, error text, and the
camera stream with its unstopped tracks. -/
structure ClientState where
  imageUrl : String
  imagePreview : Option String
  faces : List Face
  loading : Bool
  error : Option String
  cameraActive : Bool
  cameraStream : Option (List Nat)
  liveTracks : List Nat
  nextId : Nat
deriving DecidableEq

/-- Track identifiers of a freshly acquired stream of `n` tracks. -/
def streamIds (base n : Nat) : List Nat := (List.range n).map (· + base)

/-- `stopCamera`: when a stream is held, stop each of its tracks,
clear the stream, and clear the active flag; otherwise do nothing. -/
def stopCamera (s : ClientState) : ClientState :=
  match s.cameraStream with
  | some ids =>
    { s with liveTracks := s.liveTracks.filter (fun t => !ids.contains t)
             cameraStream := none
             cameraActive := false }
  | none => s

/-- Client-side resolution of a proxy error:
`err.response?.data?.error || 'Failed to detect faces'`. -/
def clientErrMsg (serverError : Option String) : String :=
  jsOrStr serverError ("Failed to detect faces")

/-- Shared tail of the three submission handlers: on success store the
faces and surface the notice when the list is empty; on failure
surface the resolved message and clear the faces; always clear the
busy flag. -/
def finishDetect (s : ClientState) (resp : Except (Option String) (List Face))
    (notice : String) : ClientState :=
  match resp with
  | .ok faces =>
    { s with faces := faces
             error := if faces.isEmpty then some notice else s.error
             loading := false }
  | .error serverError =>
    { s with error := some (clientErrMsg serverError)
             faces := []
             loading := false }

/-- User-visible events of the client session. Detection events carry
the proxy response; `startCam` carries the number of tracks of the
granted stream. -/
inductive Ev where
  | setUrl (u : String)
  | urlSubmit (resp : Except (Option String) (List Face))
  | fileUpload (file : Option String) (resp : Except (Option String) (List Face))
  | startCam (n : Nat)
  | startCamFail (msg : String)
  | capture (data : String) (resp : Except (Option String) (List Face))
  | stopCam
  | teardown

/-- One client transition. The camera controls are only rendered
while `cameraActive` matches, so `startCam`/`startCamFail` carry the
not-active guard and `capture` the active guard (the video ref is
mounted exactly while the camera section renders). -/
def step (s : ClientState) : Ev → ClientState
  | .setUrl u => { s with imageUrl := u }
  | .urlSubmit resp =>
    if jsTrim s.imageUrl = "" then s
    else
      finishDetect
        (stopCamera { s with error := none, loading := true, imagePreview := some s.imageUrl })
        resp ("No faces detected in the image")
  | .fileUpload file resp =>
    match file with
    | none => s
    | some data =>
      finishDetect
        ({ stopCamera { s with error := none, loading := true } with imagePreview := some data })
        resp ("No faces detected in the image")
  | .startCam n =>
    if s.cameraActive then s
    else
      { s with cameraStream := some (streamIds s.nextId n)
               cameraActive := true
               liveTracks := s.liveTracks ++ streamIds s.nextId n
               nextId := s.nextId + n
               imagePreview := none
               faces := []
               error := none
               loading := false }
  | .startCamFail msg =>
    if s.cameraActive then s
    else { s with error := some msg, cameraActive := false, loading := false }
  | .capture data resp =>
    if !s.cameraActive then s
    else
      finishDetect
        (stopCamera { s with loading := true, error := none, imagePreview := some data })
        resp ("No faces detected in the photo")
  | .stopCam => stopCamera s
  | .teardown => stopCamera s

/-- Initial client state (all `useState` initialisers). -/
def initState : ClientState :=
  { imageUrl := ""
    imagePreview := none
    faces := []
    loading := false
    error := none
    cameraActive := false
    cameraStream := none
    liveTracks := []
    nextId := 0 }

/-- State after a list of events from the initial state. -/
def run (es : List Ev) : ClientState := es.foldl step initState

/-- The event is a camera-stop transition from state `s`: explicit
stop, teardown, a capture with the camera live, or starting a
different acquisition path that actually proceeds. -/
def stopsCamera (s : ClientState) : Ev → Bool
  | .stopCam => true
  | .teardown => true
  | .capture _ _ => s.cameraActive
  | .urlSubmit _ => !(jsTrim s.imageUrl == "")
  | .fileUpload file _ => file.isSome
  | _ => false

/-- Session invariant: the active flag mirrors stream presence, every
unstopped track belongs to the held stream, and without a stream all
tracks are stopped. -/
def ClientInv (s : ClientState) : Prop :=
  s.cameraActive = s.cameraStream.isSome ∧
  (∀ ids, s.cameraStream = some ids → ∀ t ∈ s.liveTracks, t ∈ ids) ∧
  (s.cameraStream = none → s.liveTracks = [])

/-! ### Photo capture pixel model (`capturePhoto`, both `App`
variants issue the same `scale(-1, 1)` + `drawImage` sequence) -/

/-- A raster frame: pixel dimensions plus pixel lookup. -/
structure Frame where
  width : Nat
  height : Nat
  pixel : Int → Int → Nat

/-- Canvas 2D context transform state; the code only ever composes
axis-aligned scalings by plus or minus one. -/
structure Ctx2D where
  scaleX : Int
  scaleY : Int
deriving DecidableEq

/-- `ctx.scale(sx, sy)`. -/
def Ctx2D.scale (c : Ctx2D) (sx sy : Int) : Ctx2D :=
  ⟨c.scaleX * sx, c.scaleY * sy⟩

/-- Under `u ↦ a * u` with `a` equal to 1 or -1, the user-space unit
cell whose image covers the device pixel cell `[x, x + 1)`. -/
def deviceToUser (a : Int) (x : Int) : Int :=
  if a = 1 then x else -1 - x

/-- Pixel semantics of `ctx.drawImage(src, dx, dy, dw, dh)` under the
context transform, in the no-resampling case used at the capture call
sites (`dw`/`dh` equal the source dimensions): a device pixel inside
the drawn region shows the corresponding source pixel, pixels outside
keep the previous canvas content. -/
def drawImagePixel (c : Ctx2D) (src : Frame) (dx dy : Int) (dw dh : Nat)
    (dest : Int → Int → Nat) : Int → Int → Nat :=
  fun x y =>
    let sx := deviceToUser c.scaleX x - dx
    let sy := deviceToUser c.scaleY y - dy
    if 0 ≤ sx ∧ sx < (dw : Int) ∧ 0 ≤ sy ∧ sy < (dh : Int) then src.pixel sx sy
    else dest x y

/-- The capture sequence: size the canvas to the video, apply
`ctx.scale(-1, 1)`, then
`ctx.drawImage(video, -canvas.width, 0, canvas.width, canvas.height)`
over a blank canvas. -/
def capturePhotoFrame (video : Frame) : Frame :=
  let ctx := Ctx2D.scale ⟨1, 1⟩ (-1) 1
  { width := video.width
    height := video.height
    pixel := drawImagePixel ctx video (-(video.width : Int)) 0
      video.width video.height (fun _ _ => 0) }

/-- Modelled from the spec words: the horizontal mirror (left-right
flip about the vertical axis) of a frame, at the frame's own size. -/
def hmirrorSpec (f : Frame) : Frame :=
  { f with pixel := fun x y => f.pixel ((f.width : Int) - 1 - x) y }

/-! ### Observation helpers and concrete fixtures -/

/-- The command is a bounding-box stroke. -/
def isStrokeRectCmd : DrawCmd → Bool
  | .strokeRect _ _ _ _ => true
  | _ => false

/-- The bounding-box strokes of a command list, in order. -/
def rectCmds (l : List DrawCmd) : List DrawCmd := l.filter isStrokeRectCmd

/-- The texts of the labels of a command list, in order. -/
def labelTexts (l : List DrawCmd) : List String :=
  l.filterMap fun c =>
    match c with
    | .fillText t _ _ => some t
    | _ => none

/-- The bounding-box stroke a face record calls for. -/
def rectOfFace (f : Face) : DrawCmd :=
  .strokeRect f.faceRectangle.left f.faceRectangle.top
    f.faceRectangle.width f.faceRectangle.height

/-- A concrete configuration. -/
def cfg0 : Config := { endpoint := "https://ep/", key := "k" }

/-- A service stub answering every call with an empty detection
array. -/
def svcOk : RequestConfig → AzureOutcome := fun _ => .success []

/-- The one-face record of the end-to-end scenario of the spec. -/
def face1 : Face :=
  { faceRectangle := { left := 10, top := 20, width := 100, height := 120 }
    faceLandmarks := none }

/-- A service stub answering every call with one face. -/
def svc1 : RequestConfig → AzureOutcome := fun _ => .success [face1]

/-- A concrete failed external call: HTTP 401 with an `Unauthorized`
error code. -/
def e401 : AxiosError :=
  { response := some
      { status := 401
        data := some
          { error := some { code := some ("Unauthorized"), message := some ("Access denied") }
            message := none } }
    message := "Request failed with status code 401" }

/-- A service stub failing every call with `e401`. -/
def svcFail : RequestConfig → AzureOutcome := fun _ => .failure e401

/-- A request carrying only a URL. -/
def reqUrl : DetectRequest := { imageUrl := some ("http://u"), imageData := none }

/-- A request carrying only a tiny inline payload (three decoded
bytes). -/
def reqTiny : DetectRequest := { imageUrl := none, imageData := some ("QUJD") }

/-- A request carrying both a URL and an inline payload. -/
def reqBoth : DetectRequest := { imageUrl := some ("http://u"), imageData := some ("QUJD") }

/-- A concrete loaded preview image element. -/
def img0 : ImgEl := { width := 640, height := 480 }

/-- A concrete two-pixel-wide video frame. -/
def v0 : Frame := { width := 2, height := 1, pixel := fun x _ => x.toNat * 10 }


/-! ## Helper lemmas -/

theorem rectCmds_append (a b : List DrawCmd) :
    rectCmds (a ++ b) = rectCmds a ++ rectCmds b :=
  List.filter_append a b

theorem labelTexts_append (a b : List DrawCmd) :
    labelTexts (a ++ b) = labelTexts a ++ labelTexts b :=
  List.filterMap_append a b _

theorem rectCmds_drawLandmarkPoint (p : Option LandmarkPoint) :
    rectCmds (drawLandmarkPoint p) = [] := by
  cases p <;> rfl

theorem labelTexts_drawLandmarkPoint (p : Option LandmarkPoint) :
    labelTexts (drawLandmarkPoint p) = [] := by
  cases p <;> rfl

theorem rectCmds_landmarkCmds (lm? : Option Landmarks) :
    rectCmds (landmarkCmds lm?) = [] := by
  cases lm? with
  | none => rfl
  | some lm =>
    rw [landmarkCmds, rectCmds_append, rectCmds_append, rectCmds_append, rectCmds_append]
    simp [rectCmds_drawLandmarkPoint]

theorem labelTexts_landmarkCmds (lm? : Option Landmarks) :
    labelTexts (landmarkCmds lm?) = [] := by
  cases lm? with
  | none => rfl
  | some lm =>
    rw [landmarkCmds, labelTexts_append, labelTexts_append, labelTexts_append, labelTexts_append]
    simp [labelTexts_drawLandmarkPoint]

theorem rectCmds_drawFaceCmds (i : Nat) (f : Face) :
    rectCmds (drawFaceCmds i f) = [rectOfFace f] := by
  rw [drawFaceCmds, rectCmds_append, rectCmds_landmarkCmds]
  rfl

theorem labelTexts_drawFaceCmds (i : Nat) (f : Face) :
    labelTexts (drawFaceCmds i f) = ["Face " ++ toString (i + 1)] := by
  rw [drawFaceCmds, labelTexts_append, labelTexts_landmarkCmds]
  rfl

theorem rectCmds_muiDrawFaceCmds (i : Nat) (f : Face) :
    rectCmds (muiDrawFaceCmds i f) = [rectOfFace f] := by
  rw [muiDrawFaceCmds, rectCmds_append, rectCmds_landmarkCmds]
  rfl

theorem labelTexts_muiDrawFaceCmds (i : Nat) (f : Face) :
    labelTexts (muiDrawFaceCmds i f) = ["Face " ++ toString (i + 1)] := by
  rw [muiDrawFaceCmds, labelTexts_append, labelTexts_landmarkCmds]
  rfl

theorem rectCmds_drawFacesFrom (faces : List Face) (i : Nat) :
    rectCmds (drawFacesFrom i faces) = faces.map rectOfFace := by
  induction faces generalizing i with
  | nil => rfl
  | cons f rest ih =>
    rw [drawFacesFrom, rectCmds_append, rectCmds_drawFaceCmds, ih, List.singleton_append,
      List.map_cons]

theorem labelTexts_drawFacesFrom (faces : List Face) (i : Nat) :
    labelTexts (drawFacesFrom i faces)
      = (List.range faces.length).map (fun j => "Face " ++ toString (i + j + 1)) := by
  induction faces generalizing i with
  | nil => rfl
  | cons f rest ih =>
    rw [drawFacesFrom, labelTexts_append, labelTexts_drawFaceCmds, ih, List.singleton_append,
      List.length_cons, List.range_succ_eq_map, List.map_cons, List.map_map]
    have h2 : ((fun j => "Face " ++ toString (i + j + 1)) ∘ Nat.succ)
        = (fun j => "Face " ++ toString ((i + 1) + j + 1)) := by
      funext j
      have harg : i + Nat.succ j + 1 = (i + 1) + j + 1 := by omega
      simp [Function.comp, harg]
    rw [h2]

theorem rectCmds_muiDrawFacesFrom (faces : List Face) (i : Nat) :
    rectCmds (muiDrawFacesFrom i faces) = faces.map rectOfFace := by
  induction faces generalizing i with
  | nil => rfl
  | cons f rest ih =>
    rw [muiDrawFacesFrom, rectCmds_append, rectCmds_muiDrawFaceCmds, ih, List.singleton_append,
      List.map_cons]

theorem labelTexts_muiDrawFacesFrom (faces : List Face) (i : Nat) :
    labelTexts (muiDrawFacesFrom i faces)
      = (List.range faces.length).map (fun j => "Face " ++ toString (i + j + 1)) := by
  induction faces generalizing i with
  | nil => rfl
  | cons f rest ih =>
    rw [muiDrawFacesFrom, labelTexts_append, labelTexts_muiDrawFaceCmds, ih,
      List.singleton_append, List.length_cons, List.range_succ_eq_map, List.map_cons,
      List.map_map]
    have h2 : ((fun j => "Face " ++ toString (i + j + 1)) ∘ Nat.succ)
        = (fun j => "Face " ++ toString ((i + 1) + j + 1)) := by
      funext j
      have harg : i + Nat.succ j + 1 = (i + 1) + j + 1 := by omega
      simp [Function.comp, harg]
    rw [h2]

/-- C3: over a loaded preview image, both renderers draw exactly one
bounding box per face record, at the reported coordinates and in list
order, and exactly the sequential labels Face 1 .. Face N. -/
theorem renderDrawsAllFaces (im : ImgEl) (faces : List Face) :
    rectCmds (drawFaceBoxes (some im) (some ()) faces) = faces.map rectOfFace ∧
    labelTexts (drawFaceBoxes (some im) (some ()) faces)
      = (List.range faces.length).map (fun i => "Face " ++ toString (i + 1)) ∧
    rectCmds (muiRenderCmds im faces) = faces.map rectOfFace ∧
    labelTexts (muiRenderCmds im faces)
      = (List.range faces.length).map (fun i => "Face " ++ toString (i + 1)) := by
  refine ⟨?_, ?_, ?_, ?_⟩
  · cases faces with
    | nil => rfl
    | cons f rest => exact rectCmds_drawFacesFrom (f :: rest) 0
  · cases faces with
    | nil => rfl
    | cons f rest =>
      have h := labelTexts_drawFacesFrom (f :: rest) 0
      simp only [Nat.zero_add] at h
      exact h
  · exact rectCmds_muiDrawFacesFrom faces 0
  · have h := labelTexts_muiDrawFacesFrom faces 0
    simp only [Nat.zero_add] at h
    exact h


theorem getD_of_not_truthy {d : Option String} (h : jsTruthy d = false) : d.getD "" = "" := by
  cases d with
  | none => rfl
  | some s =>
    simp [jsTruthy] at h
    simp [h]

/-- C1: an inline-payload request (no truthy URL) whose decoded byte
length falls strictly below 1 KB or strictly above 6 MB is answered
400 with a descriptive message and no outbound call; a decoded length
inside the inclusive bound passes the size check and reaches the
forwarding step. -/
theorem inlineSizeValidation (cfg : Config) (svc : RequestConfig → AzureOutcome)
    (req : DetectRequest) (hurl : jsTruthy req.imageUrl = false) :
    ((base64DecodeBytes (stripBase64Marker (req.imageData.getD ""))).length < 1024 ∨
        (base64DecodeBytes (stripBase64Marker (req.imageData.getD ""))).length > 6 * 1024 * 1024 →
      (detectFacesRoute cfg svc req).1.isClientErrorWithMessage = true ∧
        (detectFacesRoute cfg svc req).2 = []) ∧
    (1024 ≤ (base64DecodeBytes (stripBase64Marker (req.imageData.getD ""))).length ∧
        (base64DecodeBytes (stripBase64Marker (req.imageData.getD ""))).length ≤ 6 * 1024 * 1024 →
      (detectFacesValidate cfg req).isForward = true) := by
  by_cases hd : jsTruthy req.imageData = true
  · have hval : detectFacesValidate cfg req =
        (if (base64DecodeBytes (stripBase64Marker (req.imageData.getD ""))).length > 6 * 1024 * 1024 then
          .reject 400 ("Image too large. Maximum size is 6MB.")
        else if (base64DecodeBytes (stripBase64Marker (req.imageData.getD ""))).length < 1024 then
          .reject 400 ("Image too small or corrupted.")
        else
          .forward (dataRequestConfig cfg (base64DecodeBytes (stripBase64Marker (req.imageData.getD ""))))) := by
      rw [detectFacesValidate]
      simp [hurl, hd]
    constructor
    · intro hn
      rcases hn with hn | hn
      · have hle : ¬ (base64DecodeBytes (stripBase64Marker (req.imageData.getD ""))).length > 6 * 1024 * 1024 := by omega
        rw [detectFacesRoute, hval, if_neg hle, if_pos hn]
        exact ⟨rfl, rfl⟩
      · rw [detectFacesRoute, hval, if_pos hn]
        exact ⟨rfl, rfl⟩
    · intro hn
      have h1 : ¬ (base64DecodeBytes (stripBase64Marker (req.imageData.getD ""))).length > 6 * 1024 * 1024 := by omega
      have h2 : ¬ (base64DecodeBytes (stripBase64Marker (req.imageData.getD ""))).length < 1024 := by omega
      rw [hval, if_neg h1, if_neg h2]
      rfl
  · have hdf : jsTruthy req.imageData = false := by
      cases h : jsTruthy req.imageData
      · rfl
      · exact absurd h hd
    have h0 : req.imageData.getD "" = "" := getD_of_not_truthy hdf
    have hn0 : (base64DecodeBytes (stripBase64Marker (req.imageData.getD ""))).length = 0 := by
      rw [h0]
      rfl
    have hval : detectFacesValidate cfg req =
        .reject 400 ("Either imageUrl or imageData is required") := by
      rw [detectFacesValidate]
      simp [hurl, hdf]
    constructor
    · intro _
      rw [detectFacesRoute, hval]
      exact ⟨rfl, rfl⟩
    · intro hn
      omega

theorem inlineSizeValidation_witness :
    (detectFacesRoute cfg0 svcOk reqTiny).1.isClientErrorWithMessage = true ∧
    (detectFacesRoute cfg0 svcOk reqTiny).2 = [] :=
  (inlineSizeValidation cfg0 svcOk reqTiny rfl).1 (Or.inl (by decide))

/-- C2 counterexample: a request carrying both a URL and inline data
is not rejected; the proxy makes exactly one external call and relays
its success. -/
theorem bothFieldsForwarded_counterexample :
    (detectFacesRoute cfg0 svcOk reqBoth).2 = [urlRequestConfig cfg0 ("http://u")] ∧
    (detectFacesRoute cfg0 svcOk reqBoth).1 = .success 200 [] := by
  constructor <;> rfl

/-- C2 (amended): a request supplying neither field is rejected 400
before any external call; a request supplying both (truthy) fields is
not rejected but forwarded on the URL path. -/
theorem bothFieldsPolicy (cfg : Config) (svc : RequestConfig → AzureOutcome)
    (req : DetectRequest) :
    (jsTruthy req.imageUrl = false → jsTruthy req.imageData = false →
      (detectFacesRoute cfg svc req).1
          = .validationError 400 ("Either imageUrl or imageData is required") ∧
        (detectFacesRoute cfg svc req).2 = []) ∧
    (jsTruthy req.imageUrl = true → jsTruthy req.imageData = true →
      detectFacesValidate cfg req = .forward (urlRequestConfig cfg (req.imageUrl.getD ""))) := by
  constructor
  · intro hu hd
    have hval : detectFacesValidate cfg req =
        .reject 400 ("Either imageUrl or imageData is required") := by
      rw [detectFacesValidate]
      simp [hu, hd]
    rw [detectFacesRoute, hval]
    exact ⟨rfl, rfl⟩
  · intro hu _
    rw [detectFacesValidate]
    simp [hu]

theorem bothFieldsPolicy_witness :
    (detectFacesRoute cfg0 svcOk { imageUrl := none, imageData := none }).1
        = .validationError 400 ("Either imageUrl or imageData is required") ∧
      (detectFacesRoute cfg0 svcOk { imageUrl := none, imageData := none }).2 = [] :=
  (bothFieldsPolicy cfg0 svcOk { imageUrl := none, imageData := none }).1 rfl rfl

/-- C4: the code diverges from the claim here. On a successful
detection with zero faces the notice is surfaced and the preview
source is set, but `drawFaceBoxes` returns before drawing anything,
so the preview image is never drawn to the canvas; the MUI render
closure, by contrast, does draw the image with zero boxes. -/
theorem zeroFacesRenderGap :
    (run [.setUrl ("u"), .urlSubmit (.ok [])]).error
        = some ("No faces detected in the image") ∧
    (run [.setUrl ("u"), .urlSubmit (.ok [])]).imagePreview = some ("u") ∧
    (run [.setUrl ("u"), .urlSubmit (.ok [])]).faces = [] ∧
    drawFaceBoxes (some img0) (some ()) [] = [] ∧
    muiRenderCmds img0 [] = [DrawCmd.clearRect, DrawCmd.image 640 480] := by
  refine ⟨?_, ?_, ?_, ?_, ?_⟩ <;> rfl

/-- C5: when the validation phase forwards and the external call
succeeds, the proxy relays the detection array verbatim with
status 200. -/
theorem successRelaysVerbatim (cfg : Config) (svc : RequestConfig → AzureOutcome)
    (req : DetectRequest) (rc : RequestConfig) (faces : List Face)
    (hfwd : detectFacesValidate cfg req = .forward rc)
    (hsvc : svc rc = .success faces) :
    (detectFacesRoute cfg svc req).1 = .success 200 faces := by
  simp [detectFacesRoute, hfwd, hsvc]

theorem successRelaysVerbatim_witness :
    (detectFacesRoute cfg0 svc1 reqUrl).1 = .success 200 [face1] :=
  successRelaysVerbatim cfg0 svc1 reqUrl (urlRequestConfig cfg0 ("http://u")) [face1]
    (by decide) rfl

/-- C10: a request with a non-empty `imageUrl` takes the URL path
unconditionally: it is forwarded as a structured body referencing the
URL (one outbound call regardless of the service outcome), and the
validation result does not depend on any `imageData` also present. -/
theorem urlPathUnconditional (cfg : Config) (svc : RequestConfig → AzureOutcome)
    (u : String) (d : Option String) (hu : u ≠ "") :
    detectFacesValidate cfg { imageUrl := some u, imageData := d }
        = .forward (urlRequestConfig cfg u) ∧
    (detectFacesRoute cfg svc { imageUrl := some u, imageData := d }).2
        = [urlRequestConfig cfg u] ∧
    (∀ d', detectFacesValidate cfg { imageUrl := some u, imageData := d }
        = detectFacesValidate cfg { imageUrl := some u, imageData := d' }) := by
  have hval : ∀ d' : Option String,
      detectFacesValidate cfg { imageUrl := some u, imageData := d' }
        = .forward (urlRequestConfig cfg u) := by
    intro d'
    rw [detectFacesValidate]
    simp [jsTruthy, hu]
  refine ⟨hval d, ?_, fun d' => by rw [hval d, hval d']⟩
  cases hsvc : svc (urlRequestConfig cfg u) <;>
    simp [detectFacesRoute, hval d, hsvc]

theorem urlPathUnconditional_witness :
    detectFacesValidate cfg0 { imageUrl := some ("http://u"), imageData := some ("QUJD") }
      = .forward (urlRequestConfig cfg0 ("http://u")) :=
  (urlPathUnconditional cfg0 svcOk ("http://u") (some ("QUJD")) (by decide)).1


/-- C6: on a failed external call the proxy answers with the external
status when present (500 otherwise) and a body carrying the resolved
message, the external code (or the Unknown marker when absent), the
suggestion from the fixed table (empty for unrecognised codes), and
the raw error data. -/
theorem failureErrorMapping (cfg : Config) (svc : RequestConfig → AzureOutcome)
    (req : DetectRequest) (rc : RequestConfig) (e : AxiosError)
    (hfwd : detectFacesValidate cfg req = .forward rc)
    (hsvc : svc rc = .failure e) :
    (detectFacesRoute cfg svc req).1 = .serviceError (azureStatusOf e) (azureErrorBody e) ∧
    (∀ r, e.response = some r → 0 < r.status → azureStatusOf e = r.status) ∧
    (e.response = none → azureStatusOf e = 500) ∧
    (azureErrorBody e).details = e.response.bind (fun r => r.data) ∧
    ((((e.response.bind (fun r => r.data)).bind (fun d => d.error)).bind (fun i => i.code) = none) →
      (azureErrorBody e).code = "Unknown") ∧
    (∀ c, (((e.response.bind (fun r => r.data)).bind (fun d => d.error)).bind (fun i => i.code) = some c) →
      c ≠ "" → (azureErrorBody e).code = c) ∧
    (azureErrorBody e).suggestion = suggestionFor (azureErrorBody e).code ∧
    suggestionFor ("InvalidImageUrl")
      = "The image URL is invalid or inaccessible. Please check the URL." ∧
    suggestionFor ("InvalidImageFormat")
      = "The image format is not supported. Use JPG, PNG, GIF, or BMP." ∧
    suggestionFor ("InvalidImageSize")
      = "The image size is invalid. Image must be between 1KB and 6MB." ∧
    suggestionFor ("InvalidRequest")
      = "The request format is invalid. This might be an API version issue." ∧
    suggestionFor ("Unauthorized")
      = "Invalid API key. Please check your Azure subscription key." ∧
    (∀ c, c ∉ ["InvalidImageUrl", "InvalidImageFormat", "InvalidImageSize",
        "InvalidRequest", "Unauthorized"] → suggestionFor c = "") ∧
    (∀ m, (((e.response.bind (fun r => r.data)).bind (fun d => d.error)).bind (fun i => i.message)
        = some m) → m ≠ "" → (azureErrorBody e).error = m) ∧
    (e.response = none → e.message = "" → (azureErrorBody e).error = "Face detection failed") := by
  refine ⟨?_, ?_, ?_, rfl, ?_, ?_, rfl, rfl, rfl, rfl, rfl, rfl, ?_, ?_, ?_⟩
  · simp [detectFacesRoute, hfwd, hsvc]
  · intro r hr hpos
    rw [azureStatusOf, hr]
    simp
    omega
  · intro hr
    rw [azureStatusOf, hr]
  · intro hcode
    simp [azureErrorBody, azureErrorCode, hcode, jsOrStr]
  · intro c hcode hne
    simp [azureErrorBody, azureErrorCode, hcode, jsOrStr, hne]
  · intro c hc
    simp at hc
    obtain ⟨h1, h2, h3, h4, h5⟩ := hc
    simp [suggestionFor, h1, h2, h3, h4, h5]
  · intro m hm hne
    simp [azureErrorBody, azureErrorMessage, hm, jsOrStr, hne]
  · intro hr hmsg
    simp [azureErrorBody, azureErrorMessage, hr, hmsg, jsOrStr]

theorem failureErrorMapping_witness :
    (detectFacesRoute cfg0 svcFail reqUrl).1
      = .serviceError (azureStatusOf e401) (azureErrorBody e401) :=
  (failureErrorMapping cfg0 svcFail reqUrl (urlRequestConfig cfg0 ("http://u")) e401
    (by decide) rfl).1

/-- C7: the endpoint and credential are read from the process
environment once at startup; if either is absent the process exits
with code 1 before listening, and a listening server always holds the
two non-empty values read from the environment, so absence cannot
surface at request time. -/
theorem startupConfigCheck (env : Env) :
    ((env.azureFaceEndpoint = none ∨ env.azureFaceKey = none) → startup env = .exit 1) ∧
    (∀ cfg, startup env = .listen cfg →
      env.azureFaceEndpoint = some cfg.endpoint ∧ cfg.endpoint ≠ "" ∧
        env.azureFaceKey = some cfg.key ∧ cfg.key ≠ "") := by
  constructor
  · intro h
    rcases h with h | h <;> simp [startup, h, jsTruthy]
  · intro cfg hcfg
    by_cases he : jsTruthy env.azureFaceEndpoint = true
    · by_cases hk : jsTruthy env.azureFaceKey = true
      · rw [startup] at hcfg
        simp [he, hk] at hcfg
        cases henv : env.azureFaceEndpoint with
        | none => rw [henv] at he; simp [jsTruthy] at he
        | some s =>
          cases kenv : env.azureFaceKey with
          | none => rw [kenv] at hk; simp [jsTruthy] at hk
          | some t =>
            rw [henv] at he
            rw [kenv] at hk
            simp [jsTruthy] at he hk
            rw [henv, kenv] at hcfg
            simp at hcfg
            rw [← hcfg]
            simp [he, hk]
      · have hk' : jsTruthy env.azureFaceKey = false := by
          cases h : jsTruthy env.azureFaceKey
          · rfl
          · exact absurd h hk
        rw [startup] at hcfg
        simp [hk'] at hcfg
    · have he' : jsTruthy env.azureFaceEndpoint = false := by
        cases h : jsTruthy env.azureFaceEndpoint
        · rfl
        · exact absurd h he
      rw [startup] at hcfg
      simp [he'] at hcfg

theorem startupConfigCheck_witness :
    startup { azureFaceEndpoint := none, azureFaceKey := some ("k") } = .exit 1 :=
  (startupConfigCheck { azureFaceEndpoint := none, azureFaceKey := some ("k") }).1
    (Or.inl rfl)


theorem finishDetect_cameraStream (s : ClientState) (resp : Except (Option String) (List Face))
    (notice : String) : (finishDetect s resp notice).cameraStream = s.cameraStream := by
  cases resp <;> rfl

theorem finishDetect_cameraActive (s : ClientState) (resp : Except (Option String) (List Face))
    (notice : String) : (finishDetect s resp notice).cameraActive = s.cameraActive := by
  cases resp <;> rfl

theorem finishDetect_liveTracks (s : ClientState) (resp : Except (Option String) (List Face))
    (notice : String) : (finishDetect s resp notice).liveTracks = s.liveTracks := by
  cases resp <;> rfl

theorem clientInv_ext (s s' : ClientState) (hA : s'.cameraActive = s.cameraActive)
    (hS : s'.cameraStream = s.cameraStream) (hL : s'.liveTracks = s.liveTracks)
    (h : ClientInv s) : ClientInv s' := by
  rw [ClientInv, hA, hS, hL]
  exact h

theorem stopCamera_stops (s : ClientState) (h : ClientInv s) :
    (stopCamera s).liveTracks = [] ∧ (stopCamera s).cameraStream = none ∧
      (stopCamera s).cameraActive = false := by
  obtain ⟨h1, h2, h3⟩ := h
  cases hs : s.cameraStream with
  | none =>
    have hact : s.cameraActive = false := by rw [h1, hs]; rfl
    simp [stopCamera, hs, h3 hs, hact]
  | some ids =>
    simp [stopCamera, hs]
    exact h2 ids hs

theorem finish_stopped (s₂ : ClientState) (resp : Except (Option String) (List Face))
    (notice : String) (hL : s₂.liveTracks = []) (hS : s₂.cameraStream = none)
    (hA : s₂.cameraActive = false) :
    (finishDetect s₂ resp notice).liveTracks = [] ∧
      (finishDetect s₂ resp notice).cameraStream = none ∧
      (finishDetect s₂ resp notice).cameraActive = false := by
  rw [finishDetect_liveTracks, finishDetect_cameraStream, finishDetect_cameraActive]
  exact ⟨hL, hS, hA⟩

theorem clientInv_stopCamera (s : ClientState) (h : ClientInv s) :
    ClientInv (stopCamera s) := by
  obtain ⟨hL, hS, hA⟩ := stopCamera_stops s h
  refine ⟨?_, ?_, fun _ => hL⟩
  · rw [hA, hS]
    rfl
  · intro ids hids
    rw [hS] at hids
    exact absurd hids (by simp)

theorem clientInv_init : ClientInv initState := by
  refine ⟨rfl, ?_, fun _ => rfl⟩
  intro ids hids
  exact absurd hids (by simp [initState])

theorem step_preserves_inv (s : ClientState) (e : Ev) (h : ClientInv s) :
    ClientInv (step s e) := by
  cases e with
  | setUrl u =>
    exact clientInv_ext s _ rfl rfl rfl h
  | urlSubmit resp =>
    rw [step]
    by_cases htrim : jsTrim s.imageUrl = ""
    · rw [if_pos htrim]
      exact h
    · rw [if_neg htrim]
      refine clientInv_ext _ _ (finishDetect_cameraActive _ _ _) (finishDetect_cameraStream _ _ _)
        (finishDetect_liveTracks _ _ _) ?_
      exact clientInv_stopCamera _ (clientInv_ext s _ rfl rfl rfl h)
  | fileUpload file resp =>
    cases file with
    | none => exact h
    | some data =>
      rw [step]
      refine clientInv_ext _ _ (finishDetect_cameraActive _ _ _) (finishDetect_cameraStream _ _ _)
        (finishDetect_liveTracks _ _ _) ?_
      refine clientInv_ext _ _ rfl rfl rfl ?_
      exact clientInv_stopCamera _ (clientInv_ext s _ rfl rfl rfl h)
  | startCam n =>
    rw [step]
    by_cases hact : s.cameraActive = true
    · rw [if_pos hact]
      exact h
    · have hact' : s.cameraActive = false := by
        cases hc : s.cameraActive
        · rfl
        · exact absurd hc hact
      rw [if_neg (by rw [hact']; simp)]
      obtain ⟨h1, h2, h3⟩ := h
      have hs : s.cameraStream = none := by
        rw [hact'] at h1
        cases hc : s.cameraStream with
        | none => rfl
        | some ids => rw [hc] at h1; simp at h1
      have hl : s.liveTracks = [] := h3 hs
      refine ⟨rfl, ?_, by intro hnone; exact absurd hnone (by simp)⟩
      intro ids hids t ht
      simp only [Option.some_inj] at hids
      rw [hl] at ht
      simp only [List.nil_append] at ht
      rw [← hids]
      exact ht
  | startCamFail msg =>
    rw [step]
    by_cases hact : s.cameraActive = true
    · rw [if_pos hact]
      exact h
    · have hact' : s.cameraActive = false := by
        cases hc : s.cameraActive
        · rfl
        · exact absurd hc hact
      rw [if_neg (by rw [hact']; simp)]
      obtain ⟨h1, h2, h3⟩ := h
      have hs : s.cameraStream = none := by
        rw [hact'] at h1
        cases hc : s.cameraStream with
        | none => rfl
        | some ids => rw [hc] at h1; simp at h1
      exact ⟨by simp [hs], by intro ids hids; rw [hs] at hids; exact absurd hids (by simp),
        fun _ => h3 hs⟩
  | capture data resp =>
    rw [step]
    by_cases hact : s.cameraActive = true
    · rw [if_neg (by rw [hact]; simp)]
      refine clientInv_ext _ _ (finishDetect_cameraActive _ _ _) (finishDetect_cameraStream _ _ _)
        (finishDetect_liveTracks _ _ _) ?_
      exact clientInv_stopCamera _ (clientInv_ext s _ rfl rfl rfl h)
    · have hact' : s.cameraActive = false := by
        cases hc : s.cameraActive
        · rfl
        · exact absurd hc hact
      rw [if_pos (by rw [hact']; rfl)]
      exact h
  | stopCam => exact clientInv_stopCamera s h
  | teardown => exact clientInv_stopCamera s h

theorem foldl_inv (es : List Ev) (s : ClientState) (h : ClientInv s) :
    ClientInv (es.foldl step s) := by
  induction es generalizing s with
  | nil => exact h
  | cons e rest ih => exact ih (step s e) (step_preserves_inv s e h)

theorem run_inv (es : List Ev) : ClientInv (run es) :=
  foldl_inv es initState clientInv_init

/-- C8: after any camera-stop transition from any reachable client
state - explicit stop, successful capture, starting a different
acquisition path, or teardown - every acquired media track has
reached the stopped state; no active track remains observable. -/
theorem cameraStopStopsAllTracks (es : List Ev) (e : Ev)
    (h : stopsCamera (run es) e = true) :
    (step (run es) e).liveTracks = [] ∧ (step (run es) e).cameraStream = none ∧
      (step (run es) e).cameraActive = false := by
  have hInv := run_inv es
  cases e with
  | setUrl u => exact absurd h (by simp [stopsCamera])
  | startCam n => exact absurd h (by simp [stopsCamera])
  | startCamFail msg => exact absurd h (by simp [stopsCamera])
  | stopCam => exact stopCamera_stops (run es) hInv
  | teardown => exact stopCamera_stops (run es) hInv
  | capture data resp =>
    rw [stopsCamera] at h
    rw [step, if_neg (by rw [h]; simp)]
    obtain ⟨hL, hS, hA⟩ :=
      stopCamera_stops { run es with loading := true, error := none, imagePreview := some data }
        (clientInv_ext (run es) _ rfl rfl rfl hInv)
    exact finish_stopped _ resp _ hL hS hA
  | urlSubmit resp =>
    rw [stopsCamera] at h
    have htrim : ¬ jsTrim (run es).imageUrl = "" := by
      intro hc
      rw [hc] at h
      simp at h
    rw [step, if_neg htrim]
    obtain ⟨hL, hS, hA⟩ :=
      stopCamera_stops
        { run es with error := none, loading := true, imagePreview := some (run es).imageUrl }
        (clientInv_ext (run es) _ rfl rfl rfl hInv)
    exact finish_stopped _ resp _ hL hS hA
  | fileUpload file resp =>
    rw [stopsCamera] at h
    cases file with
    | none => simp at h
    | some data =>
      rw [step]
      obtain ⟨hL, hS, hA⟩ :=
        stopCamera_stops { run es with error := none, loading := true }
          (clientInv_ext (run es) _ rfl rfl rfl hInv)
      exact finish_stopped _ resp _ hL hS hA

theorem cameraStopStopsAllTracks_witness :
    (step (run [.startCam 2]) .stopCam).liveTracks = [] ∧
      (step (run [.startCam 2]) .stopCam).cameraStream = none ∧
      (step (run [.startCam 2]) .stopCam).cameraActive = false :=
  cameraStopStopsAllTracks [.startCam 2] .stopCam rfl


/-- C9: every pixel of the captured photo inside the video's own
width and height equals the corresponding pixel of the horizontal
mirror of the live frame at the moment of capture. -/
theorem captureIsHorizontalMirror (video : Frame) (x y : Int)
    (hx0 : 0 ≤ x) (hx : x < (video.width : Int))
    (hy0 : 0 ≤ y) (hy : y < (video.height : Int)) :
    (capturePhotoFrame video).pixel x y = (hmirrorSpec video).pixel x y ∧
    (capturePhotoFrame video).pixel x y = video.pixel ((video.width : Int) - 1 - x) y := by
  have hres : (capturePhotoFrame video).pixel x y
      = video.pixel ((video.width : Int) - 1 - x) y := by
    show drawImagePixel (Ctx2D.scale ⟨1, 1⟩ (-1) 1) video (-(video.width : Int)) 0
        video.width video.height (fun _ _ => 0) x y = _
    rw [drawImagePixel, Ctx2D.scale]
    simp only [deviceToUser]
    have hm : (if (1 : Int) * -1 = 1 then x else -1 - x) = -1 - x := by norm_num
    have hp : (if (1 : Int) * 1 = 1 then y else -1 - y) = y := by norm_num
    rw [hm, hp]
    have e1 : -1 - x - -(video.width : Int) = (video.width : Int) - 1 - x := by ring
    have e2 : y - (0 : Int) = y := by ring
    rw [e1, e2]
    rw [if_pos ⟨by omega, by omega, by omega, by omega⟩]
  refine ⟨?_, hres⟩
  rw [hres]
  rfl

theorem captureIsHorizontalMirror_witness :
    (capturePhotoFrame v0).pixel 0 0 = (hmirrorSpec v0).pixel 0 0 :=
  (captureIsHorizontalMirror v0 0 0 (by decide) (by decide) (by decide) (by decide)).1

end VisionID
